import Mathlib

/-! Verification of `main.py`, a concurrent load-testing harness for a local LLM
inference server.  The Python source is shallowly embedded: pure helpers become
Lean functions, the network transport is a parameter (`StreamOutcome`), the
process environment is a lookup function, the `logging` registry is explicit
state, and Python exceptions become an explicit `PyExc` value threaded through
`Except` / an `escaped` field.  Python `float` values are modelled as `ℚ`: the
program performs no floating-point arithmetic, it only stores the sampling
parameters (all exact decimal literals) and passes them through.
-/

namespace OllamaLoadTest

/-! Models of the Python primitives used by the source. -/

/-- Decimal digit characters of `n`, most significant first, via the standard
division/modulus expansion.  `fuel` bounds recursion depth so the definition is
structural and kernel-evaluable; `fuel > n` always suffices. -/
def decCharsAux (fuel n : Nat) : List Char :=
  match fuel with
  | 0 => []
  | fuel + 1 =>
    if n < 10 then [Nat.digitChar n]
    else decCharsAux fuel (n / 10) ++ [Nat.digitChar (n % 10)]

/-- Decimal digit characters of a natural number, most significant first. -/
def decChars (n : Nat) : List Char := decCharsAux (n + 1) n

/-- Numeric value of a list of decimal digit characters (decoder used to prove
that decimal rendering is injective). -/
def decVal (l : List Char) : Nat :=
  List.foldl (fun a c => a * 10 + (c.toNat - 48)) 0 l

/-- Model of Python `str(n)` for a non-negative integer. -/
def pyNatStr (n : Nat) : String := String.mk (decChars n)

/-- Model of Python `str(i)` / `f-string` rendering of an `int`. -/
def pyIntStr (i : Int) : String :=
  if i < 0 then "-" ++ String.mk (decChars i.natAbs) else String.mk (decChars i.natAbs)

/-- Model of Python `str.upper()` (ASCII inputs only, as used here). -/
def pyUpper (s : String) : String := String.mk (s.data.map Char.toUpper)

/-- Model of Python `str.startswith(p)`. -/
def pyStartsWith (s p : String) : Bool := p.data.isPrefixOf s.data

/-- Model of Python `str.endswith(p)`. -/
def pyEndsWith (s p : String) : Bool := p.data.reverse.isPrefixOf s.data.reverse

/-- Model of Python `int(s)`: strip surrounding whitespace, optional sign, then
decimal digits.  (Digit-group underscores and non-ASCII digits, which Python
also accepts, are not modelled; no claim depends on them.) -/
def pyInt (s : String) : Option Int :=
  let t := ((s.data.dropWhile Char.isWhitespace).reverse.dropWhile Char.isWhitespace).reverse
  match t with
  | [] => none
  | c :: ds =>
    if c = '-' then
      if !ds.isEmpty && ds.all Char.isDigit then some (-(decVal ds : Int)) else none
    else if c = '+' then
      if !ds.isEmpty && ds.all Char.isDigit then some ((decVal ds : Int)) else none
    else if (c :: ds).all Char.isDigit then some ((decVal (c :: ds) : Int)) else none

/-- One replacement pass of `template.format(port=value)`: every occurrence of
the placeholder `ph` in `l` is replaced by `rep`.  `fuel` bounds recursion so
the definition is structural; `fuel ≥ l.length` suffices. -/
def substAux (fuel : Nat) (ph rep l : List Char) : List Char :=
  match fuel with
  | 0 => l
  | fuel + 1 =>
    match l with
    | [] => []
    | c :: rest =>
      if ph.isPrefixOf (c :: rest) then rep ++ substAux fuel ph rep ((c :: rest).drop ph.length)
      else c :: substAux fuel ph rep rest

/-- Model of Python `template.format(port=value)` as used at `main.py:88`: the
`\x7bport\x7d` placeholder in the endpoint template is replaced by `value`. -/
def pyFormatPort (template value : String) : String :=
  String.mk (substAux template.data.length ("\x7bport\x7d").data value.data template.data)

/-- Model of Python `str(q)` for the rationals standing in for floats.  Exact
decimal re-rendering is not needed by any claim; integral values render as
Python does (`"1.0"`), others as a fraction. -/
def pyRatStr (q : ℚ) : String :=
  if q.den = 1 then pyIntStr q.num ++ ".0" else pyIntStr q.num ++ "/" ++ pyNatStr q.den

/-- Model of `os.path.join(a, b)` for the relative second components used in
this program (every joined filename starts with `'P'`, never `'/'`). -/
def os_path_join (a b : String) : String :=
  if a = "" then b
  else if pyEndsWith a "/" then a ++ b
  else a ++ "/" ++ b

/-! Logging model (`get_logger`, `main.py:21-47`).

The `logging` module's per-process registry of named loggers is modelled as a
function from names to logger state; handlers record what `get_logger`
attaches (a console stream handler and a rotating file handler). -/

def logging_DEBUG : Nat := 10

def logging_INFO : Nat := 20

/-- A handler attached to a logger: the console `StreamHandler` or the
`RotatingFileHandler` bound to a filename. -/
inductive Handler where
  | stream (level : Nat) (format : String)
  | file (filename : String) (level : Nat) (format : String)
deriving DecidableEq, Repr

/-- State of one named logger in the registry. -/
structure LoggerState where
  level : Nat
  handlers : List Handler
deriving DecidableEq, Repr

/-- The process-wide registry behind `logging.getLogger`. -/
def LogRegistry := String → Option LoggerState

/-- Model of `logging.getLogger(name)`: returns the existing logger, or a fresh one with
level `NOTSET` (0) and no handlers. -/
def getLoggerRaw (reg : LogRegistry) (name : String) : LoggerState :=
  match reg name with
  | some st => st
  | none => { level := 0, handlers := [] }

/-- Embedding of `get_logger` (`main.py:21-47`).  Returns the logger handed to
the caller together with the updated registry.  If the named logger already
has a handler it is returned unchanged; otherwise the level is set and a
console handler (at `level`) plus a file handler (at `INFO`) are attached. -/
def get_logger (reg : LogRegistry) (name filename format : String) (level : Nat) :
    LoggerState × LogRegistry :=
  let logger := getLoggerRaw reg name
  if logger.handlers.length > 0 then
    (logger, reg)
  else
    let logger' : LoggerState :=
      { level := level,
        handlers := [Handler.stream level format, Handler.file filename logging_INFO format] }
    (logger', fun n => if n = name then some logger' else reg n)

/-! Engine and model enumerations (`main.py:50-69`). -/

/-- Embedding of `InferenceEngine` (`StrEnum`): the supported inference backends. -/
inductive InferenceEngine where
  | ollama
deriving DecidableEq, Repr

/-- String value of an `InferenceEngine` member. -/
def InferenceEngine.value : InferenceEngine → String
  | .ollama => "ollama"

/-- Embedding of `Model` (`StrEnum`): the supported model identifiers. -/
inductive Model where
  | qwen3_32b
  | qwen3_14b
  | qwen3_a3b
  | qwen3_a3b_2507
  | gpt_oss_20b
  | gpt_oss_120b
  | qwen3_32b_cm
  | qwen3_14b_cm
  | qwen3_a3b_cm
  | qwen3_a3b_2507_cm
  | gpt_oss_20b_cm
  | gpt_oss_120b_cm
deriving DecidableEq, Repr

/-- String value of a `Model` member. -/
def Model.value : Model → String
  | .qwen3_32b => "qwen3:32b-fp16"
  | .qwen3_14b => "qwen3:14b-fp16"
  | .qwen3_a3b => "qwen3:30b-a3b-fp16"
  | .qwen3_a3b_2507 => "qwen3:30b-a3b-instruct-2507-fp16"
  | .gpt_oss_20b => "gpt-oss:20b"
  | .gpt_oss_120b => "gpt-oss:120b"
  | .qwen3_32b_cm => "qwen3:32b-fp16-cm"
  | .qwen3_14b_cm => "qwen3:14b-fp16-cm"
  | .qwen3_a3b_cm => "qwen3:30b-a3b-fp16-cm"
  | .qwen3_a3b_2507_cm => "qwen3:30b-a3b-instruct-2507-fp16-cm"
  | .gpt_oss_20b_cm => "gpt-oss:20b-cm"
  | .gpt_oss_120b_cm => "gpt-oss:120b-cm"

/-! Exceptions and the error taxonomy of the worker (`main.py:178-195`). -/

/-- Concrete Python exception values that can be raised in this program.  The
`openai` exception classes are flattened: each constructor is one concrete
class; the class hierarchy is recorded by `classesOf`. -/
inductive PyExc where
  | assertionError (msg : String)
  | valueError (msg : String)
  | indexError (msg : String)
  | authenticationError
  | rateLimitError
  | badRequestError
  | apiConnectionError
  | internalServerError
  | apiTimeoutError
  | apiStatusError (status_code : Nat)
  | apiError
  | otherError
deriving DecidableEq, Repr

/-- The exception classes named by the `except` clauses of `job`. -/
inductive ExcClass where
  | AuthenticationError
  | RateLimitError
  | BadRequestError
  | APIConnectionError
  | InternalServerError
  | APITimeoutError
  | APIStatusError
  | APIError
  | PyException
deriving DecidableEq, Repr

/-- The classes (among those named in `except` clauses) that each concrete
exception is an instance of, per the `openai` library hierarchy:
`APIStatusError < APIError`, `APIConnectionError < APIError`,
`APITimeoutError < APIConnectionError`, and the four specific status errors
below `APIStatusError`; everything derives Python's `Exception`. -/
def classesOf : PyExc → List ExcClass
  | .assertionError _ => [.PyException]
  | .valueError _ => [.PyException]
  | .indexError _ => [.PyException]
  | .authenticationError => [.AuthenticationError, .APIStatusError, .APIError, .PyException]
  | .rateLimitError => [.RateLimitError, .APIStatusError, .APIError, .PyException]
  | .badRequestError => [.BadRequestError, .APIStatusError, .APIError, .PyException]
  | .apiConnectionError => [.APIConnectionError, .APIError, .PyException]
  | .internalServerError => [.InternalServerError, .APIStatusError, .APIError, .PyException]
  | .apiTimeoutError => [.APITimeoutError, .APIConnectionError, .APIError, .PyException]
  | .apiStatusError _ => [.APIStatusError, .APIError, .PyException]
  | .apiError => [.APIError, .PyException]
  | .otherError => [.PyException]

/-- Python `isinstance` against one of the handled classes. -/
def isInstance (e : PyExc) (c : ExcClass) : Bool := (classesOf e).contains c

/-- Subclass-or-equal relation between handled classes (`openai` hierarchy). -/
def subClassOf (a b : ExcClass) : Bool :=
  (match a with
  | .AuthenticationError => [ExcClass.AuthenticationError, .APIStatusError, .APIError, .PyException]
  | .RateLimitError => [ExcClass.RateLimitError, .APIStatusError, .APIError, .PyException]
  | .BadRequestError => [ExcClass.BadRequestError, .APIStatusError, .APIError, .PyException]
  | .APIConnectionError => [ExcClass.APIConnectionError, .APIError, .PyException]
  | .InternalServerError => [ExcClass.InternalServerError, .APIStatusError, .APIError, .PyException]
  | .APITimeoutError => [ExcClass.APITimeoutError, .APIConnectionError, .APIError, .PyException]
  | .APIStatusError => [ExcClass.APIStatusError, .APIError, .PyException]
  | .APIError => [ExcClass.APIError, .PyException]
  | .PyException => [ExcClass.PyException]).contains b

/-- The `except` clauses of `job` (`main.py:178-195`) in source order. -/
def handlerOrder : List ExcClass :=
  [.AuthenticationError, .RateLimitError, .BadRequestError, .APIConnectionError,
   .InternalServerError, .APITimeoutError, .APIStatusError, .APIError, .PyException]

/-- The clause that handles `e`: the first class in source order that `e` is an
instance of (Python's `except` dispatch).  Every modelled exception derives
`Exception`, so the fallback default is never reached. -/
def matchedHandler (e : PyExc) : ExcClass :=
  (handlerOrder.find? (fun c => isInstance e c)).getD .PyException

/-- Value of `e.status_code` for the status errors (used only by the
`APIStatusError` clause's message). -/
def statusCodeOf : PyExc → Nat
  | .authenticationError => 401
  | .rateLimitError => 429
  | .badRequestError => 400
  | .internalServerError => 500
  | .apiStatusError c => c
  | _ => 0

/-- The message `job` logs from the clause `c` handling exception `e`. -/
def handlerMsg (c : ExcClass) (e : PyExc) : String :=
  match c with
  | .AuthenticationError => "Authentication failed."
  | .RateLimitError => "Rate limit exceeded."
  | .BadRequestError => "Bad request."
  | .APIConnectionError => "Failed to connect to the API. Check network connection."
  | .InternalServerError => "Internal server error."
  | .APITimeoutError => "API timed out."
  | .APIStatusError => "API Status Error: Received status " ++ pyNatStr (statusCodeOf e) ++ "."
  | .APIError => "An unexpected error occured in the API."
  | .PyException => "An unexpected error occurred."

/-- Message logged by the `except` chain of `job` for exception `e`. -/
def handleExc (e : PyExc) : String := handlerMsg (matchedHandler e) e

/-! Endpoint resolver (`get_client`, `main.py:72-95`). -/

/-- The client `get_client` constructs: just the resolved base URL and the
placeholder credential. -/
structure OpenAIClient where
  base_url : String
  api_key : String
deriving DecidableEq, Repr

/-- Embedding of `get_client` (`main.py:72-95`).  `env` is `os.getenv`.  A
failed `assert` (missing or empty variable) raises `AssertionError`; an
unparseable port raises `ValueError` from `int(port)`. -/
def get_client (env : String → Option String) (engine : InferenceEngine)
    (is_multi_port : Bool) (index : Nat) : Except PyExc OpenAIClient :=
  let e := engine.value
  let url_env_key := pyUpper e ++ "_ENDPOINT"
  match env url_env_key with
  | none =>
    .error (PyExc.assertionError ("Endpoint not valid. Set env \"" ++ url_env_key ++ "\"."))
  | some endpoint =>
    if endpoint = "" then
      .error (PyExc.assertionError ("Endpoint not valid. Set env \"" ++ url_env_key ++ "\"."))
    else
      let port_env_key := pyUpper e ++ "_PORT"
      match env port_env_key with
      | none =>
        .error (PyExc.assertionError ("Port not valid. Set env \"" ++ port_env_key ++ "\"."))
      | some portStr =>
        if portStr = "" then
          .error (PyExc.assertionError ("Port not valid. Set env \"" ++ port_env_key ++ "\"."))
        else
          match pyInt portStr with
          | none =>
            .error (PyExc.valueError ("invalid literal for int() with base 10: " ++ portStr))
          | some port =>
            let portS := if is_multi_port then pyIntStr (port + (index : Int)) else pyIntStr port
            let endpoint' := pyFormatPort endpoint portS
            .ok { base_url := endpoint', api_key := e }

/-! Streaming consumer (`call_llm_stream`, `main.py:101-132`). -/

/-- One log line emitted by a worker, tagged by the logging call that produced
it (`logger.info`, `logger.error`, or `logger.exception`). -/
inductive LogEntry where
  | info (msg : String)
  | error (msg : String)
  | exceptionLog (msg : String)
deriving DecidableEq, Repr

/-- Is this entry a `logger.exception` classification entry? -/
def isExceptionEntry : LogEntry → Bool
  | .exceptionLog _ => true
  | _ => false

/-- An event delivered by the chat-completion stream.  `otherEvent` covers
every tag other than `error` and `content.delta`. -/
inductive StreamEvent where
  | errorEvent (message : String)
  | contentDelta (delta : String)
  | otherEvent (tag : String)
deriving DecidableEq, Repr

/-- A chat message as sent in the request body. -/
structure ChatMessage where
  role : String
  content : String
deriving DecidableEq, Repr

/-- The streaming request `call_llm_stream` opens. -/
structure StreamRequest where
  model : String
  messages : List ChatMessage
  temperature : ℚ
  top_p : ℚ
deriving DecidableEq, Repr

/-- The `message` of one choice of the final assembled completion. -/
structure ChoiceMessage where
  content : String
deriving DecidableEq, Repr

/-- One choice of the final assembled completion. -/
structure Choice where
  message : ChoiceMessage
deriving DecidableEq, Repr

/-- The final assembled completion returned by `stream.get_final_completion()`. -/
structure FinalCompletion where
  choices : List Choice
deriving DecidableEq, Repr

/-- Behaviour of the transport for one streaming call: either the call raises
a Python exception after delivering some events, or the stream is exhausted
and a final completion is available. -/
inductive StreamOutcome where
  | raises (delivered : List StreamEvent) (e : PyExc)
  | yields (events : List StreamEvent) (final : FinalCompletion)

/-- The user message content built at `main.py:117`.  Python's conditional
expression binds looser than `+`, so the whole concatenation is conditional:
when the suffix condition fails the user prompt is dropped entirely. -/
def user_message_content (model prompt : String) (enable_thinking : Bool) : String :=
  if !enable_thinking && pyStartsWith model "qwen3" then prompt ++ " /no_think" else ""

/-- The two-message list sent by `call_llm_stream` (`main.py:113-119`). -/
def build_messages (model prompt system_prompt : String) (enable_thinking : Bool) :
    List ChatMessage :=
  [{ role := "system", content := system_prompt },
   { role := "user", content := user_message_content model prompt enable_thinking }]

/-- The `for event in stream` loop of `call_llm_stream` (`main.py:123-127`):
`error` events are logged at error level, `content.delta` events at info
level, all other tags are ignored; the loop never aborts the stream. -/
def consumeStream (events : List StreamEvent) : List LogEntry :=
  events.foldl
    (fun logs event =>
      match event with
      | .errorEvent m => logs ++ [LogEntry.error ("error: " ++ m)]
      | .contentDelta d => logs ++ [LogEntry.info d]
      | .otherEvent _ => logs)
    []

/-- The action of one iteration of the loop body on one event (the per-event
reading of `main.py:124-127`), used to state order preservation. -/
def eventAction : StreamEvent → List LogEntry
  | .errorEvent m => [LogEntry.error ("error: " ++ m)]
  | .contentDelta d => [LogEntry.info d]
  | .otherEvent _ => []

/-- Result of one embedded `call_llm_stream` invocation: the request it
opened, the log lines it produced, and either the returned output or the
exception it raised. -/
structure StreamCallResult where
  request : StreamRequest
  logs : List LogEntry
  result : Except PyExc String
deriving Repr

/-- Embedding of `call_llm_stream` (`main.py:101-132`).  The opaque transport
is `outcome`.  On exhaustion the final completion is fetched and
`response.choices[0].message.content` is returned; an empty `choices` list
raises `IndexError` (Python list indexing). -/
def call_llm_stream (model prompt system_prompt : String) (temperature top_p : ℚ)
    (enable_thinking : Bool) (outcome : StreamOutcome) : StreamCallResult :=
  let request : StreamRequest :=
    { model := model,
      messages := build_messages model prompt system_prompt enable_thinking,
      temperature := temperature,
      top_p := top_p }
  match outcome with
  | .raises delivered e =>
    { request := request, logs := consumeStream delivered, result := .error e }
  | .yields events final =>
    { request := request,
      logs := consumeStream events,
      result :=
        match final.choices with
        | [] => .error (PyExc.indexError "list index out of range")
        | c :: _ => .ok c.message.content }

/-! Config and worker (`Config` / `job`, `main.py:135-200`). -/

/-- Embedding of the pydantic `Config` model (`main.py:135-145`). -/
structure Config where
  engine : InferenceEngine
  model : Model
  multiport : Bool
  system_prompt : String
  user_prompt : String
  temperature : ℚ
  top_p : ℚ
  log_folder : String
deriving DecidableEq, Repr

/-- Model of `config.model_dump_json(indent=2)`: an opaque rendering of the
config (quote escaping inside the prompt strings is not modelled; no claim
inspects this text). -/
def configJson (c : Config) : String :=
  "\x7b\n  \"engine\": \"" ++ c.engine.value ++
  "\",\n  \"model\": \"" ++ c.model.value ++
  "\",\n  \"multiport\": " ++ (if c.multiport then "true" else "false") ++
  ",\n  \"system_prompt\": \"" ++ c.system_prompt ++
  "\",\n  \"user_prompt\": \"" ++ c.user_prompt ++
  "\",\n  \"temperature\": " ++ pyRatStr c.temperature ++
  ",\n  \"top_p\": " ++ pyRatStr c.top_p ++
  ",\n  \"log_folder\": \"" ++ c.log_folder ++ "\"\n\x7d"

/-- The worker label `f'P\x7bid:02d\x7d'` (`main.py:152`): `'P'` followed by
the id zero-padded to width 2. -/
def process_name (id : Nat) : String :=
  "P" ++ String.mk (List.replicate (2 - (decChars id).length) '0' ++ decChars id)

/-- The per-worker log file path (`main.py:156`). -/
def log_filename (config : Config) (id : Nat) : String :=
  os_path_join config.log_folder (process_name id ++ ".log")

/-- The per-worker log format string (`main.py:157`). -/
def job_log_format (pname : String) : String :=
  "\x7basctime\x7d | \x7blevelname:8.8s\x7d | - " ++ ("[" ++ pname ++ "]") ++ " \x7bmessage\x7d"

/-- Observable result of one `job` run: the log lines the worker emitted, the
exception that escaped `job` (if any), and the logging registry afterwards. -/
structure JobOutput where
  trace : List LogEntry
  escaped : Option PyExc
  registryAfter : LogRegistry

/-- Embedding of `job` (`main.py:148-200`).  Logger and client acquisition
happen before the `try` block, so an exception raised there (e.g. the
`assert` in `get_client`) escapes `job`; only the streaming call is guarded
by the `except` chain, whose classification is `handleExc`, and the `finally`
clause appends the `'Exiting'` entry on every exit path of the `try`. -/
def job (id : Nat) (config : Config) (reg : LogRegistry) (env : String → Option String)
    (outcome : StreamOutcome) : JobOutput :=
  let pname := process_name id
  let reg1 := (get_logger reg pname (log_filename config id) (job_log_format pname)
    logging_DEBUG).2
  let trace0 : List LogEntry :=
    [.info "Created logger",
     .info ("Process ID: " ++ pyNatStr id),
     .info ("Config:\n" ++ configJson config)]
  match get_client env config.engine config.multiport id with
  | .error e => { trace := trace0, escaped := some e, registryAfter := reg1 }
  | .ok _client =>
    let trace1 := trace0 ++ [.info "Created client"]
    let call := call_llm_stream config.model.value config.user_prompt config.system_prompt
      config.temperature config.top_p false outcome
    match call.result with
    | .ok output =>
      { trace := trace1 ++ call.logs ++
          [.info ("LLM response:\n" ++ output), .info "Finished successfully.", .info "Exiting"],
        escaped := none,
        registryAfter := reg1 }
    | .error e =>
      { trace := trace1 ++ call.logs ++ [.exceptionLog (handleExc e), .info "Exiting"],
        escaped := none,
        registryAfter := reg1 }

/-! Dispatcher (`main`, `main.py:203-227`). -/

/-- The shared `Config` built by `main` (`main.py:207-216`). -/
def mainConfig (multiport : Bool) (system_prompt user_prompt : String) : Config :=
  { engine := .ollama,
    model := .qwen3_32b_cm,
    multiport := multiport,
    system_prompt := system_prompt,
    user_prompt := user_prompt,
    temperature := 0.0,
    top_p := 0.0,
    log_folder := "./logs" }

/-- The thread list built by the `for id in range(num_threads)` loop of `main`
(`main.py:218-221`): each planned worker is its id paired with the shared
config. -/
def main_threads (num_threads : Nat) (config : Config) : List (Nat × Config) :=
  (List.range num_threads).foldl (fun threads id => threads ++ [(id, config)]) []

/-- Denotation of `main` (`main.py:203-227`): every planned worker's `job` is
run to completion and `main` holds all their results when it returns (the
start-all/join-all structure; no outcome is aggregated or propagated —
the results are only the workers' own logs).  `outcomes` gives each worker's
transport behaviour. -/
def main_run (num_threads : Nat) (multiport : Bool) (system_prompt user_prompt : String)
    (reg : LogRegistry) (env : String → Option String) (outcomes : Nat → StreamOutcome) :
    List JobOutput :=
  let config := mainConfig multiport system_prompt user_prompt
  (main_threads num_threads config).map (fun t => job t.1 t.2 reg env (outcomes t.1))

/-! Concrete fixtures used by witnesses and counterexamples. -/

/-- An environment with neither variable set. -/
def emptyEnv : String → Option String := fun _ => none

/-- A well-formed environment: endpoint template and base port 11434. -/
def envOk : String → Option String := fun k =>
  if k = "OLLAMA_ENDPOINT" then some "http://localhost:\x7bport\x7d/v1"
  else if k = "OLLAMA_PORT" then some "11434"
  else none

/-- A fresh logging registry: no logger exists yet. -/
def freshRegistry : LogRegistry := fun _ => none

/-- A concrete config for witnesses. -/
def cfg0 : Config :=
  { engine := .ollama,
    model := .qwen3_32b_cm,
    multiport := true,
    system_prompt := "You are a helpful assistant.",
    user_prompt := "Hello",
    temperature := 1.0,
    top_p := 0.95,
    log_folder := "./logs" }

/-! Helper lemmas. -/

/-- Folding the decimal decoder over `decCharsAux fuel n` recovers `n`
(positionally shifted by the accumulator), provided the fuel suffices. -/
theorem decCharsAux_foldl (fuel : Nat) :
    ∀ n acc : Nat, n < fuel →
      List.foldl (fun a c => a * 10 + (c.toNat - 48)) acc (decCharsAux fuel n) =
        acc * 10 ^ (decCharsAux fuel n).length + n := by
  induction fuel with
  | zero => intro n acc h; omega
  | succ f ih =>
    intro n acc _h
    by_cases h : n < 10
    · simp only [decCharsAux, h, if_true, List.foldl_cons, List.foldl_nil, List.length_cons,
        List.length_nil, zero_add, pow_one]
      have hd : (Nat.digitChar n).toNat = 48 + n := by interval_cases n <;> rfl
      omega
    · simp only [decCharsAux, h, if_false, List.foldl_append, List.length_append]
      have hlt : n / 10 < f := by omega
      rw [ih (n / 10) acc hlt]
      have hm : n % 10 < 10 := Nat.mod_lt _ (by omega)
      have hd : (Nat.digitChar (n % 10)).toNat = 48 + n % 10 := by
        interval_cases hx : (n % 10) <;> rfl
      simp only [List.foldl_cons, List.foldl_nil, List.length_cons, List.length_nil, zero_add,
        pow_succ, hd]
      rw [← mul_assoc]
      generalize acc * 10 ^ (decCharsAux f (n / 10)).length = m
      omega

/-- Decoding the decimal rendering of `n` gives back `n`. -/
theorem decVal_decChars (n : Nat) : decVal (decChars n) = n := by
  have h := decCharsAux_foldl (n + 1) n 0 (by omega)
  simpa [decVal, decChars] using h

/-- Leading zero padding does not change the decoded value. -/
theorem decVal_zeros_append (k n : Nat) :
    decVal (List.replicate k '0' ++ decChars n) = n := by
  have hz : List.foldl (fun a c => a * 10 + (c.toNat - 48)) 0 (List.replicate k '0') = 0 := by
    induction k with
    | zero => rfl
    | succ k ih =>
      rw [List.replicate_succ, List.foldl_cons]
      have h0 : (0 * 10 + (('0').toNat - 48)) = 0 := rfl
      rw [h0]
      exact ih
  unfold decVal
  rw [List.foldl_append, hz]
  exact decVal_decChars n

/-- The zero-padded worker labels decode back to the worker id, hence the
label map is injective. -/
theorem process_name_injective {i j : Nat} (h : process_name i = process_name j) : i = j := by
  have h1 : String.mk ('P' :: (List.replicate (2 - (decChars i).length) '0' ++ decChars i)) =
      String.mk ('P' :: (List.replicate (2 - (decChars j).length) '0' ++ decChars j)) := h
  have h2 : 'P' :: (List.replicate (2 - (decChars i).length) '0' ++ decChars i) =
      'P' :: (List.replicate (2 - (decChars j).length) '0' ++ decChars j) :=
    congrArg String.data h1
  injection h2 with _ h3
  have h4 := congrArg decVal h3
  rw [decVal_zeros_append, decVal_zeros_append] at h4
  exact h4

/-- The per-worker log file paths are injective in the worker id (for a fixed
config). -/
theorem log_filename_injective {i j : Nat} (cfg : Config)
    (h : log_filename cfg i = log_filename cfg j) : i = j := by
  apply process_name_injective (i := i) (j := j)
  unfold log_filename os_path_join at h
  by_cases h0 : cfg.log_folder = ""
  · simp only [h0, if_true] at h
    have h2 : (process_name i).data ++ (".log").data =
        (process_name j).data ++ (".log").data := congrArg String.data h
    have h3 : (process_name i).data = (process_name j).data := List.append_cancel_right h2
    exact congrArg String.mk h3
  · simp only [h0, if_false] at h
    by_cases h1 : pyEndsWith cfg.log_folder "/" = true
    · simp only [h1, if_true] at h
      have h2 : cfg.log_folder.data ++ ((process_name i).data ++ (".log").data) =
          cfg.log_folder.data ++ ((process_name j).data ++ (".log").data) := by
        have := congrArg String.data h
        simpa [String.data] using this
      have h3 := List.append_cancel_left h2
      have h4 : (process_name i).data = (process_name j).data := List.append_cancel_right h3
      exact congrArg String.mk h4
    · simp only [h1, if_false] at h
      have h2 : (cfg.log_folder.data ++ ('/' :: [])) ++
            ((process_name i).data ++ (".log").data) =
          (cfg.log_folder.data ++ ('/' :: [])) ++
            ((process_name j).data ++ (".log").data) := by
        have := congrArg String.data h
        simpa [String.data, List.append_assoc] using this
      have h3 := List.append_cancel_left h2
      have h4 : (process_name i).data = (process_name j).data := List.append_cancel_right h3
      exact congrArg String.mk h4

/-! Claim theorems. -/

/-- A `get_logger` call on a name whose logger already has a handler returns
that logger and leaves the registry unchanged. -/
theorem get_logger_of_has_handlers (reg : LogRegistry) (name filename format : String)
    (level : Nat) (st : LoggerState) (hst : getLoggerRaw reg name = st)
    (h : st.handlers.length > 0) :
    get_logger reg name filename format level = (st, reg) := by
  unfold get_logger
  rw [hst]
  simp only [h, if_true]

/-- Claim C8: `get_logger` is idempotent per name — when the named logger
already has at least one handler, it is returned unchanged and the registry is
untouched, so no console or file handler is duplicated. -/
theorem get_logger_idempotent (reg : LogRegistry) (name filename format : String) (level : Nat)
    (h : (getLoggerRaw reg name).handlers.length > 0) :
    get_logger reg name filename format level = (getLoggerRaw reg name, reg) := by
  unfold get_logger
  simp only [h, if_true]

/-- Witness for C8 at a registry that already holds a handler-bearing logger
named `P00`. -/
theorem get_logger_idempotent_witness :
    get_logger (fun n => if n = "P00" then
        some { level := 10, handlers := [Handler.stream 10 "f"] } else none)
      "P00" "other.log" "otherformat" 20 =
      (getLoggerRaw (fun n => if n = "P00" then
        some { level := 10, handlers := [Handler.stream 10 "f"] } else none) "P00",
       fun n => if n = "P00" then
        some { level := 10, handlers := [Handler.stream 10 "f"] } else none) :=
  get_logger_idempotent _ "P00" "other.log" "otherformat" 20 (by decide)

/-- Claim C10 (implicit): a second `get_logger` call with the same name but a
different filename and format silently ignores the new arguments — the logger
returned is still bound to the first call's file and format, because the only
guard is whether the named logger already has any handler. -/
theorem get_logger_ignores_new_args (reg0 : LogRegistry) (name f1 fmt1 f2 fmt2 : String)
    (l1 l2 : Nat) (h : (getLoggerRaw reg0 name).handlers = []) :
    (get_logger (get_logger reg0 name f1 fmt1 l1).2 name f2 fmt2 l2).1 =
      { level := l1,
        handlers := [Handler.stream l1 fmt1, Handler.file f1 logging_INFO fmt1] } ∧
    (get_logger (get_logger reg0 name f1 fmt1 l1).2 name f2 fmt2 l2).2 =
      (get_logger reg0 name f1 fmt1 l1).2 := by
  have hfirst : (get_logger reg0 name f1 fmt1 l1).2 =
      fun n => if n = name then
        some { level := l1,
               handlers := [Handler.stream l1 fmt1, Handler.file f1 logging_INFO fmt1] }
        else reg0 n := by
    unfold get_logger
    simp only [h, List.length_nil, gt_iff_lt, lt_self_iff_false, if_false]
  have hlook : getLoggerRaw (get_logger reg0 name f1 fmt1 l1).2 name =
      { level := l1,
        handlers := [Handler.stream l1 fmt1, Handler.file f1 logging_INFO fmt1] } := by
    rw [hfirst]
    unfold getLoggerRaw
    simp
  have hsecond := get_logger_of_has_handlers (get_logger reg0 name f1 fmt1 l1).2 name f2 fmt2 l2
    { level := l1, handlers := [Handler.stream l1 fmt1, Handler.file f1 logging_INFO fmt1] }
    hlook (by simp)
  rw [hsecond]
  exact ⟨rfl, rfl⟩

/-- Witness for C10: after creating `P00` bound to `a.log`, a second request
with `b.log` and a new format returns the logger still bound to `a.log`. -/
theorem get_logger_ignores_new_args_witness :
    (get_logger (get_logger freshRegistry "P00" "a.log" "fmtA" 10).2 "P00" "b.log" "fmtB" 20).1 =
      { level := 10,
        handlers := [Handler.stream 10 "fmtA", Handler.file "a.log" logging_INFO "fmtA"] } :=
  (get_logger_ignores_new_args freshRegistry "P00" "a.log" "fmtA" "b.log" "fmtB" 10 20 rfl).1

/-- Claim C9: distinct worker ids always get distinct labels
(`'P'` + zero-padded id) and hence distinct per-worker log file paths; both
are functions of the id alone. -/
theorem worker_labels_distinct (i j : Nat) (cfg : Config) (h : i ≠ j) :
    process_name i ≠ process_name j ∧ log_filename cfg i ≠ log_filename cfg j := by
  constructor
  · intro hc
    exact h (process_name_injective hc)
  · intro hc
    exact h (log_filename_injective cfg hc)

/-- Witness for C9 at ids 0 and 1. -/
theorem worker_labels_distinct_witness :
    process_name 0 ≠ process_name 1 ∧ log_filename cfg0 0 ≠ log_filename cfg0 1 :=
  worker_labels_distinct 0 1 cfg0 (by decide)

/-- The streaming loop is a single in-order pass: its output is the
concatenation of the per-event actions, in delivery order. -/
theorem consumeStream_eq_flatten (events : List StreamEvent) :
    consumeStream events = (events.map eventAction).flatten := by
  have key : ∀ (evs : List StreamEvent) (acc : List LogEntry),
      List.foldl
        (fun logs event =>
          match event with
          | .errorEvent m => logs ++ [LogEntry.error ("error: " ++ m)]
          | .contentDelta d => logs ++ [LogEntry.info d]
          | .otherEvent _ => logs)
        acc evs = acc ++ (evs.map eventAction).flatten := by
    intro evs
    induction evs with
    | nil => intro acc; simp
    | cons e es ih =>
      intro acc
      rw [List.foldl_cons, ih, List.map_cons, List.flatten_cons]
      cases e <;> simp [eventAction]
  simpa [consumeStream] using key events []

/-- The streaming loop never emits a `logger.exception` classification entry. -/
theorem consumeStream_no_classification (events : List StreamEvent) :
    (consumeStream events).countP isExceptionEntry = 0 := by
  rw [consumeStream_eq_flatten]
  induction events with
  | nil => rfl
  | cons e es ih =>
    rw [List.map_cons, List.flatten_cons, List.countP_append, ih]
    cases e <;> simp [eventAction, List.countP_cons, isExceptionEntry]

/-- Shape of `job` when client resolution fails: the trace stops at the config
dump and the exception escapes. -/
theorem job_error_shape (id : Nat) (cfg : Config) (reg : LogRegistry)
    (env : String → Option String) (outcome : StreamOutcome) (e : PyExc)
    (h : get_client env cfg.engine cfg.multiport id = Except.error e) :
    job id cfg reg env outcome =
      { trace := [LogEntry.info "Created logger",
          LogEntry.info ("Process ID: " ++ pyNatStr id),
          LogEntry.info ("Config:\n" ++ configJson cfg)],
        escaped := some e,
        registryAfter := (get_logger reg (process_name id) (log_filename cfg id)
          (job_log_format (process_name id)) logging_DEBUG).2 } := by
  simp only [job, h]

/-- Shape of `job` when the client resolves and the streaming call raises. -/
theorem job_raises_shape (id : Nat) (cfg : Config) (reg : LogRegistry)
    (env : String → Option String) (delivered : List StreamEvent) (e : PyExc)
    (cl : OpenAIClient) (h : get_client env cfg.engine cfg.multiport id = Except.ok cl) :
    job id cfg reg env (StreamOutcome.raises delivered e) =
      { trace := [LogEntry.info "Created logger",
          LogEntry.info ("Process ID: " ++ pyNatStr id),
          LogEntry.info ("Config:\n" ++ configJson cfg),
          LogEntry.info "Created client"] ++ consumeStream delivered ++
          [LogEntry.exceptionLog (handleExc e), LogEntry.info "Exiting"],
        escaped := none,
        registryAfter := (get_logger reg (process_name id) (log_filename cfg id)
          (job_log_format (process_name id)) logging_DEBUG).2 } := by
  simp only [job, h]
  rfl

/-- Shape of `job` when the stream is exhausted and the final completion has a
first choice. -/
theorem job_yields_ok_shape (id : Nat) (cfg : Config) (reg : LogRegistry)
    (env : String → Option String) (events : List StreamEvent) (final : FinalCompletion)
    (c : Choice) (rest : List Choice) (cl : OpenAIClient)
    (h : get_client env cfg.engine cfg.multiport id = Except.ok cl)
    (hc : final.choices = c :: rest) :
    job id cfg reg env (StreamOutcome.yields events final) =
      { trace := [LogEntry.info "Created logger",
          LogEntry.info ("Process ID: " ++ pyNatStr id),
          LogEntry.info ("Config:\n" ++ configJson cfg),
          LogEntry.info "Created client"] ++ consumeStream events ++
          [LogEntry.info ("LLM response:\n" ++ c.message.content),
           LogEntry.info "Finished successfully.", LogEntry.info "Exiting"],
        escaped := none,
        registryAfter := (get_logger reg (process_name id) (log_filename cfg id)
          (job_log_format (process_name id)) logging_DEBUG).2 } := by
  have hres : (call_llm_stream cfg.model.value cfg.user_prompt cfg.system_prompt
      cfg.temperature cfg.top_p false (StreamOutcome.yields events final)).result =
      Except.ok c.message.content := by
    simp only [call_llm_stream, hc]
  simp only [job, h, hres]
  rfl

/-- Shape of `job` when the stream is exhausted but the final completion has
no choices: the `IndexError` from `choices[0]` is caught by the catch-all. -/
theorem job_yields_nil_shape (id : Nat) (cfg : Config) (reg : LogRegistry)
    (env : String → Option String) (events : List StreamEvent) (final : FinalCompletion)
    (cl : OpenAIClient)
    (h : get_client env cfg.engine cfg.multiport id = Except.ok cl)
    (hc : final.choices = []) :
    job id cfg reg env (StreamOutcome.yields events final) =
      { trace := [LogEntry.info "Created logger",
          LogEntry.info ("Process ID: " ++ pyNatStr id),
          LogEntry.info ("Config:\n" ++ configJson cfg),
          LogEntry.info "Created client"] ++ consumeStream events ++
          [LogEntry.exceptionLog (handleExc (PyExc.indexError "list index out of range")),
           LogEntry.info "Exiting"],
        escaped := none,
        registryAfter := (get_logger reg (process_name id) (log_filename cfg id)
          (job_log_format (process_name id)) logging_DEBUG).2 } := by
  have hres : (call_llm_stream cfg.model.value cfg.user_prompt cfg.system_prompt
      cfg.temperature cfg.top_p false (StreamOutcome.yields events final)).result =
      Except.error (PyExc.indexError "list index out of range") := by
    simp only [call_llm_stream, hc]
  simp only [job, h, hres]
  rfl

/-- The last element of a list ending in an explicit two-element suffix. -/
theorem getLast?_append_pair (l : List LogEntry) (a b : LogEntry) :
    (l ++ [a, b]).getLast? = some b := by
  rw [List.getLast?_append]
  rfl

/-- The last element of a list ending in an explicit three-element suffix. -/
theorem getLast?_append_three (l : List LogEntry) (a b c : LogEntry) :
    (l ++ [a, b, c]).getLast? = some c := by
  rw [List.getLast?_append]
  rfl

/-- The matched `except` clause really matches the raised exception. -/
theorem matchedHandler_isInstance (e : PyExc) : isInstance e (matchedHandler e) = true := by
  cases e <;> rfl

/-- The matched `except` clause is the most specific matching one for every
exception except a request timeout: `APITimeoutError` derives
`APIConnectionError` and the connection clause comes first in source order,
so a timeout is dispatched to the (less specific) connection clause. -/
theorem matchedHandler_most_specific_except_timeout (e : PyExc) :
    ∀ c ∈ handlerOrder, isInstance e c = true →
      (subClassOf (matchedHandler e) c = true ∨
        (e = PyExc.apiTimeoutError ∧ matchedHandler e = ExcClass.APIConnectionError ∧
          c = ExcClass.APITimeoutError)) := by
  intro c hc hi
  cases e <;> fin_cases hc <;>
    simp_all [isInstance, classesOf, subClassOf, matchedHandler, handlerOrder]

/-- Claim C1: every streaming call sends exactly two messages — a system
message carrying `system_prompt` verbatim, and a user message whose content is
`user_prompt ++ " /no_think"` exactly when extended thinking is disabled and
the model identifier starts with `"qwen3"`, and the empty string in every
other case (the user prompt is dropped entirely, not left unsuffixed). -/
theorem stream_messages_policy (model prompt system_prompt : String)
    (temperature top_p : ℚ) (enable_thinking : Bool) (outcome : StreamOutcome) :
    (call_llm_stream model prompt system_prompt temperature top_p enable_thinking
        outcome).request.messages =
      [{ role := "system", content := system_prompt },
       { role := "user",
         content := if enable_thinking = false ∧ pyStartsWith model "qwen3" = true
           then prompt ++ " /no_think" else "" }] ∧
    (call_llm_stream model prompt system_prompt temperature top_p enable_thinking
        outcome).request.messages.length = 2 := by
  cases outcome <;>
    by_cases he : enable_thinking <;>
    by_cases hs : pyStartsWith model "qwen3" = true <;>
    simp [call_llm_stream, build_messages, user_message_content, he, hs]

/-- Claim C5: events are processed strictly in delivery order by a single
pass — `error` events are logged at error level without aborting the
consumption, `content.delta` events are logged at info level, any other tag
produces nothing — and after exhaustion the first choice's message content of
the final completion is the returned value. -/
theorem stream_events_processed_in_order (events : List StreamEvent)
    (final : FinalCompletion) (model prompt system_prompt : String)
    (temperature top_p : ℚ) :
    consumeStream events = (events.map eventAction).flatten ∧
    (∀ m, eventAction (StreamEvent.errorEvent m) = [LogEntry.error ("error: " ++ m)]) ∧
    (∀ d, eventAction (StreamEvent.contentDelta d) = [LogEntry.info d]) ∧
    (∀ tag, eventAction (StreamEvent.otherEvent tag) = []) ∧
    (∀ c rest, final.choices = c :: rest →
      (call_llm_stream model prompt system_prompt temperature top_p false
        (StreamOutcome.yields events final)).result = Except.ok c.message.content ∧
      (call_llm_stream model prompt system_prompt temperature top_p false
        (StreamOutcome.yields events final)).logs = consumeStream events) := by
  refine ⟨consumeStream_eq_flatten events, fun m => rfl, fun d => rfl, fun tag => rfl, ?_⟩
  intro c rest hc
  constructor
  · simp only [call_llm_stream, hc]
  · rfl

/-- Witness for C5: a stream delivering two deltas and an ignored event, whose
final completion carries `"Hello"`. -/
theorem stream_events_processed_in_order_witness :
    (call_llm_stream "qwen3:32b-fp16-cm" "Hello" "sys" 1 (95/100) false
      (StreamOutcome.yields
        [StreamEvent.contentDelta "Hel", StreamEvent.contentDelta "lo",
         StreamEvent.otherEvent "content.done"]
        { choices := [{ message := { content := "Hello" } }] })).result =
      Except.ok "Hello" :=
  ((stream_events_processed_in_order
    [StreamEvent.contentDelta "Hel", StreamEvent.contentDelta "lo",
     StreamEvent.otherEvent "content.done"]
    { choices := [{ message := { content := "Hello" } }] }
    "qwen3:32b-fp16-cm" "Hello" "sys" 1 (95/100)).2.2.2.2
    { message := { content := "Hello" } } [] rfl).1

/-- Claim C4: with multiport enabled, worker `i`'s substituted port is
`base_port + i` (distinct workers get distinct ports); with multiport
disabled the substituted port is `base_port` unchanged, so all workers
resolve the same endpoint URL. -/
theorem multiport_port_resolution (env : String → Option String) (tmpl ps : String)
    (p : Int) (i j : Nat) (he : env "OLLAMA_ENDPOINT" = some tmpl) (hte : tmpl ≠ "")
    (hp : env "OLLAMA_PORT" = some ps) (hpv : pyInt ps = some p) :
    get_client env InferenceEngine.ollama true i =
      Except.ok { base_url := pyFormatPort tmpl (pyIntStr (p + (i : Int))),
                  api_key := "ollama" } ∧
    get_client env InferenceEngine.ollama false i =
      Except.ok { base_url := pyFormatPort tmpl (pyIntStr p), api_key := "ollama" } ∧
    (i ≠ j → p + (i : Int) ≠ p + (j : Int)) ∧
    get_client env InferenceEngine.ollama false i =
      get_client env InferenceEngine.ollama false j := by
  have hps : ps ≠ "" := by
    intro hcontra
    rw [hcontra] at hpv
    exact Option.noConfusion hpv
  have key : ∀ (b : Bool) (k : Nat), get_client env InferenceEngine.ollama b k =
      Except.ok { base_url := pyFormatPort tmpl
                    (pyIntStr (if b then p + (k : Int) else p)),
                  api_key := "ollama" } := by
    intro b k
    have hk1 : pyUpper (InferenceEngine.value InferenceEngine.ollama) ++ "_ENDPOINT" =
        "OLLAMA_ENDPOINT" := rfl
    have hk2 : pyUpper (InferenceEngine.value InferenceEngine.ollama) ++ "_PORT" =
        "OLLAMA_PORT" := rfl
    simp only [get_client, hk1, hk2, he, hp, hpv, if_neg hte, if_neg hps]
    cases b <;> simp [InferenceEngine.value]
  refine ⟨?_, ?_, ?_, ?_⟩
  · simpa using key true i
  · simpa using key false i
  · intro hij heq
    apply hij
    omega
  · rw [key false i, key false j]
    simp

/-- Witness for C4 at base port 11434 and workers 0, 1. -/
theorem multiport_port_resolution_witness :
    get_client envOk InferenceEngine.ollama true 1 =
      Except.ok { base_url := pyFormatPort "http://localhost:\x7bport\x7d/v1"
                    (pyIntStr ((11434 : Int) + (1 : Nat))),
                  api_key := "ollama" } ∧
    get_client envOk InferenceEngine.ollama false 0 =
      get_client envOk InferenceEngine.ollama false 1 :=
  ⟨(multiport_port_resolution envOk "http://localhost:\x7bport\x7d/v1" "11434" 11434 1 0
      rfl (by decide) rfl rfl).1,
   (multiport_port_resolution envOk "http://localhost:\x7bport\x7d/v1" "11434" 11434 0 1
      rfl (by decide) rfl rfl).2.2.2⟩

/-- When either environment variable is absent, empty, or the port is
unparseable, `get_client` raises a configuration error — a plain
`AssertionError`/`ValueError`, outside the `openai` exception hierarchy. -/
theorem get_client_env_error (env : String → Option String) (mp : Bool) (idx : Nat)
    (h : env "OLLAMA_ENDPOINT" = none ∨ env "OLLAMA_ENDPOINT" = some "" ∨
      env "OLLAMA_PORT" = none ∨ env "OLLAMA_PORT" = some "" ∨
      (∃ s, env "OLLAMA_PORT" = some s ∧ pyInt s = none)) :
    ∃ e, get_client env InferenceEngine.ollama mp idx = Except.error e ∧
      classesOf e = [ExcClass.PyException] := by
  have hk1 : pyUpper (InferenceEngine.value InferenceEngine.ollama) ++ "_ENDPOINT" =
      "OLLAMA_ENDPOINT" := rfl
  have hk2 : pyUpper (InferenceEngine.value InferenceEngine.ollama) ++ "_PORT" =
      "OLLAMA_PORT" := rfl
  cases hE : env "OLLAMA_ENDPOINT" with
  | none =>
    refine ⟨PyExc.assertionError ("Endpoint not valid. Set env \"OLLAMA_ENDPOINT\"."), ?_, rfl⟩
    simp only [get_client, hk1, hk2, hE]
    rfl
  | some t =>
    by_cases ht : t = ""
    · subst ht
      refine ⟨PyExc.assertionError ("Endpoint not valid. Set env \"OLLAMA_ENDPOINT\"."), ?_, rfl⟩
      simp only [get_client, hk1, hk2, hE]
      rfl
    · rcases h with h1 | h1 | h1 | h1 | ⟨s, hs, hn⟩
      · rw [h1] at hE; exact Option.noConfusion hE
      · rw [h1] at hE
        exact absurd (Option.some.inj hE).symm ht
      · refine ⟨PyExc.assertionError ("Port not valid. Set env \"OLLAMA_PORT\"."), ?_, rfl⟩
        simp only [get_client, hk1, hk2, hE]
        rw [if_neg ht]
        simp only [h1]
        rfl
      · refine ⟨PyExc.assertionError ("Port not valid. Set env \"OLLAMA_PORT\"."), ?_, rfl⟩
        simp only [get_client, hk1, hk2, hE]
        rw [if_neg ht]
        simp only [h1]
        rfl
      · by_cases hse : s = ""
        · refine ⟨PyExc.assertionError ("Port not valid. Set env \"OLLAMA_PORT\"."), ?_, rfl⟩
          subst hse
          simp only [get_client, hk1, hk2, hE]
          rw [if_neg ht]
          simp only [hs]
          rfl
        · refine ⟨PyExc.valueError ("invalid literal for int() with base 10: " ++ s), ?_, rfl⟩
          simp only [get_client, hk1, hk2, hE]
          rw [if_neg ht]
          simp only [hs]
          rw [if_neg hse]
          simp only [hn]

/-- Claim C3: a missing/empty endpoint or port variable, or an unparseable
port, makes endpoint resolution raise a configuration error before the
worker's streaming call begins — the job result does not depend on the
transport at all — and the error escapes the worker rather than being
classified by the per-worker error taxonomy (no `logger.exception` entry is
written). -/
theorem config_error_fail_fast (id : Nat) (cfg : Config) (reg : LogRegistry)
    (env : String → Option String) (o1 o2 : StreamOutcome)
    (h : env "OLLAMA_ENDPOINT" = none ∨ env "OLLAMA_ENDPOINT" = some "" ∨
      env "OLLAMA_PORT" = none ∨ env "OLLAMA_PORT" = some "" ∨
      (∃ s, env "OLLAMA_PORT" = some s ∧ pyInt s = none)) :
    (∃ e, (job id cfg reg env o1).escaped = some e ∧
      isInstance e ExcClass.APIError = false ∧
      isInstance e ExcClass.PyException = true) ∧
    job id cfg reg env o1 = job id cfg reg env o2 ∧
    (job id cfg reg env o1).trace.countP isExceptionEntry = 0 := by
  have heng : cfg.engine = InferenceEngine.ollama := by
    cases hx : cfg.engine
    rfl
  obtain ⟨e, hgc, hcls⟩ := get_client_env_error env cfg.multiport id h
  rw [← heng] at hgc
  have h1 := job_error_shape id cfg reg env o1 e hgc
  have h2 := job_error_shape id cfg reg env o2 e hgc
  refine ⟨⟨e, ?_, ?_, ?_⟩, ?_, ?_⟩
  · rw [h1]
  · simp [isInstance, hcls]
  · simp [isInstance, hcls]
  · rw [h1, h2]
  · rw [h1]
    simp [List.countP_cons, isExceptionEntry]

/-- Witness for C3: the empty environment. -/
theorem config_error_fail_fast_witness :
    (job 0 cfg0 freshRegistry emptyEnv (StreamOutcome.yields [] { choices := [] })).trace.countP
      isExceptionEntry = 0 :=
  (config_error_fail_fast 0 cfg0 freshRegistry emptyEnv
    (StreamOutcome.yields [] { choices := [] })
    (StreamOutcome.yields [] { choices := [] }) (Or.inl rfl)).2.2

/-- Claim C2 is refuted: with no environment configured, the `assert` inside
`get_client` — called before the `try` block of `job` — raises an
`AssertionError` that escapes the worker, and the final log action is the
config dump, not an `'Exiting'` marker. -/
theorem job_propagates_config_error :
    (job 0 cfg0 freshRegistry emptyEnv
        (StreamOutcome.yields [] { choices := [] })).escaped =
      some (PyExc.assertionError "Endpoint not valid. Set env \"OLLAMA_ENDPOINT\".") ∧
    (job 0 cfg0 freshRegistry emptyEnv
        (StreamOutcome.yields [] { choices := [] })).trace.getLast? ≠
      some (LogEntry.info "Exiting") := by
  constructor
  · rfl
  · decide

/-- Claim C2 amended: failures raised during the streaming call never escape
`run_job` — each is caught, classified, logged and swallowed, and the final
log action of the worker is the `'Exiting'` marker on every exit path of the
guarded phase.  (Failures raised before the `try` block — logger/client
setup, e.g. missing environment configuration — do propagate and skip the
marker; see the counterexample.) -/
theorem streaming_failures_swallowed (id : Nat) (cfg : Config) (reg : LogRegistry)
    (env : String → Option String) (outcome : StreamOutcome) (cl : OpenAIClient)
    (h : get_client env cfg.engine cfg.multiport id = Except.ok cl) :
    (job id cfg reg env outcome).escaped = none ∧
    (job id cfg reg env outcome).trace.getLast? = some (LogEntry.info "Exiting") := by
  cases outcome with
  | raises delivered e =>
    rw [job_raises_shape id cfg reg env delivered e cl h]
    exact ⟨rfl, getLast?_append_pair _ _ _⟩
  | yields events final =>
    cases hc : final.choices with
    | nil =>
      rw [job_yields_nil_shape id cfg reg env events final cl h hc]
      exact ⟨rfl, getLast?_append_pair _ _ _⟩
    | cons c rest =>
      rw [job_yields_ok_shape id cfg reg env events final c rest cl h hc]
      exact ⟨rfl, getLast?_append_three _ _ _ _⟩

/-- Witness for C2 (amended): a worker with a valid environment whose stream
raises finishes with escaped = none. -/
theorem streaming_failures_swallowed_witness :
    (job 0 cfg0 freshRegistry envOk
      (StreamOutcome.raises [] PyExc.otherError)).escaped = none :=
  (streaming_failures_swallowed 0 cfg0 freshRegistry envOk
    (StreamOutcome.raises [] PyExc.otherError)
    { base_url := "http://localhost:11434/v1", api_key := "ollama" } rfl).1

/-- Claim C6 counterexample: the taxonomy does not always choose the most
specific matching kind.  A request timeout (`APITimeoutError`, a subclass of
`APIConnectionError`) is dispatched to the earlier connection-failure clause,
because `except APIConnectionError` precedes `except APITimeoutError` in
source order — the timeout clause is unreachable. -/
theorem timeout_not_most_specific :
    matchedHandler PyExc.apiTimeoutError = ExcClass.APIConnectionError ∧
    isInstance PyExc.apiTimeoutError ExcClass.APITimeoutError = true ∧
    subClassOf ExcClass.APITimeoutError ExcClass.APIConnectionError = true ∧
    ExcClass.APITimeoutError ≠ ExcClass.APIConnectionError ∧
    handleExc PyExc.apiTimeoutError =
      "Failed to connect to the API. Check network connection." :=
  ⟨rfl, rfl, rfl, by decide, rfl⟩

/-- Claim C6 (amended): a rate-limit failure of the streaming call produces
exactly one classification entry — classified as rate-limit, not any other
taxonomy kind nor the catch-all — followed by the `'Exiting'` entry, and no
exception escapes the worker; in general every raised failure is dispatched
to exactly one of the nine clauses, namely the first matching one in source
order, which is the most specific matching kind for every exception except a
request timeout (caught by the earlier, less specific connection clause). -/
theorem rate_limit_single_classification (id : Nat) (cfg : Config) (reg : LogRegistry)
    (env : String → Option String) (delivered : List StreamEvent) (cl : OpenAIClient)
    (h : get_client env cfg.engine cfg.multiport id = Except.ok cl) :
    (job id cfg reg env (StreamOutcome.raises delivered PyExc.rateLimitError)).escaped =
      none ∧
    (job id cfg reg env
        (StreamOutcome.raises delivered PyExc.rateLimitError)).trace.countP
      isExceptionEntry = 1 ∧
    (∃ t, (job id cfg reg env (StreamOutcome.raises delivered PyExc.rateLimitError)).trace =
      t ++ [LogEntry.exceptionLog "Rate limit exceeded.", LogEntry.info "Exiting"]) ∧
    handlerOrder.length = 9 ∧
    (∀ e : PyExc, isInstance e (matchedHandler e) = true ∧
      ∀ c ∈ handlerOrder, isInstance e c = true →
        (subClassOf (matchedHandler e) c = true ∨
          (e = PyExc.apiTimeoutError ∧ matchedHandler e = ExcClass.APIConnectionError ∧
            c = ExcClass.APITimeoutError))) := by
  have hmsg : handleExc PyExc.rateLimitError = "Rate limit exceeded." := rfl
  have hsh := job_raises_shape id cfg reg env delivered PyExc.rateLimitError cl h
  rw [hmsg] at hsh
  refine ⟨?_, ?_, ?_, rfl, fun e => ⟨matchedHandler_isInstance e,
    matchedHandler_most_specific_except_timeout e⟩⟩
  · rw [hsh]
  · rw [hsh]
    simp [List.countP_append, List.countP_cons, isExceptionEntry,
      consumeStream_no_classification]
  · rw [hsh]
    refine ⟨LogEntry.info "Created logger" :: LogEntry.info ("Process ID: " ++ pyNatStr id) ::
      LogEntry.info ("Config:\n" ++ configJson cfg) :: LogEntry.info "Created client" ::
      consumeStream delivered, ?_⟩
    simp

/-- Witness for C6 with a valid environment and an immediately-raising
stream. -/
theorem rate_limit_single_classification_witness :
    (job 0 cfg0 freshRegistry envOk
      (StreamOutcome.raises [] PyExc.rateLimitError)).trace.countP isExceptionEntry = 1 :=
  (rate_limit_single_classification 0 cfg0 freshRegistry envOk []
    { base_url := "http://localhost:11434/v1", api_key := "ollama" } rfl).2.1

/-- The dispatcher's thread list is the ids `0..n-1`, each paired with the
shared config. -/
theorem main_threads_eq (n : Nat) (cfg : Config) :
    main_threads n cfg = (List.range n).map (fun id => (id, cfg)) := by
  have key : ∀ (l : List Nat) (acc : List (Nat × Config)),
      List.foldl (fun threads id => threads ++ [(id, cfg)]) acc l =
        acc ++ l.map (fun id => (id, cfg)) := by
    intro l
    induction l with
    | nil => intro acc; simp
    | cons x xs ih =>
      intro acc
      rw [List.foldl_cons, ih]
      simp
  simpa [main_threads] using key (List.range n) []

/-- Claim C7: for every `num_workers = N`, the dispatcher launches exactly N
workers carrying the distinct ids `0..N-1` and one shared config, and `main`
holds every worker's completed result when it returns — no worker outcome is
aggregated or propagated beyond the workers' own logs. -/
theorem dispatcher_launches_all (n : Nat) (multiport : Bool)
    (system_prompt user_prompt : String) (reg : LogRegistry)
    (env : String → Option String) (outcomes : Nat → StreamOutcome) :
    (main_threads n (mainConfig multiport system_prompt user_prompt)).map Prod.fst =
      List.range n ∧
    (main_threads n (mainConfig multiport system_prompt user_prompt)).map Prod.snd =
      List.replicate n (mainConfig multiport system_prompt user_prompt) ∧
    (main_run n multiport system_prompt user_prompt reg env outcomes).length = n ∧
    main_run n multiport system_prompt user_prompt reg env outcomes =
      (List.range n).map
        (fun id => job id (mainConfig multiport system_prompt user_prompt) reg env
          (outcomes id)) := by
  have key1 : ∀ l : List Nat,
      (l.map (fun id => (id, mainConfig multiport system_prompt user_prompt))).map Prod.fst =
        l := by
    intro l
    induction l with
    | nil => rfl
    | cons x xs ih => simp [ih]
  have key2 : ∀ l : List Nat,
      (l.map (fun id => (id, mainConfig multiport system_prompt user_prompt))).map Prod.snd =
        List.replicate l.length (mainConfig multiport system_prompt user_prompt) := by
    intro l
    induction l with
    | nil => rfl
    | cons x xs ih => simp [ih, List.replicate_succ]
  refine ⟨?_, ?_, ?_, ?_⟩
  · rw [main_threads_eq]
    exact key1 (List.range n)
  · rw [main_threads_eq]
    simpa [List.length_range] using key2 (List.range n)
  · simp [main_run, main_threads_eq]
  · simp only [main_run, main_threads_eq, List.map_map]
    rfl

end OllamaLoadTest
